import Mathlib

/-
Verification development for the Avalanche freelance-escrow API facade
(`main.py`).  The Python handlers are shallowly embedded as pure Lean
functions over an explicit chain-gateway environment: every on-chain read
the handler performs (getTask, allowance, transaction count, gas price,
gas estimation) is a field of the environment, and handlers additionally
return the ordered list of chain calls they issued.  Transaction-count
reads are indexed by their dynamic occurrence (the k-th read of the
request may observe a different value than the first, as on a live
chain), which lets statements about nonce derivation distinguish one
read from two.  Python `Decimal` amounts are represented exactly as
`num / 10 ^ scale`.  The write-direction converters model the `decimal`
module's default context faithfully: a multiplication whose exact
coefficient exceeds 28 significant digits is rounded half-even to 28
digits before `int()` truncates toward zero (truncation of a
non-negative value is `Nat` division).  The read-direction divisions
(`wei_to_ether`, `base_unit_to_token`), whose results the handlers only
echo back, are modelled as exact rationals.  `HTTPException` and plain Python
exceptions are both values of `PyErr`; the blanket `except Exception`
re-raise at the end of each handler is the `catch_all` wrapper.
-/

namespace Escrow

/-- Deployed escrow contract address, `Config.CONTRACT_ADDRESS` in main.py. -/
def CONTRACT_ADDRESS : String := "0xf44b769fa4e7b77e8e6070f91bea56ee59ee6236"

/-- Testnet USDC address, `Config.USDC_ADDRESS`. -/
def USDC_ADDRESS : String := "0x5425890298aed601595a70AB815c96711a31Bc65"

/-- Testnet USDT address, `Config.USDT_ADDRESS`. -/
def USDT_ADDRESS : String := "0x1f1E7c893855525b303f99bDf5c3c05BE09ca251"

/-- Zero address, the native-coin sentinel returned by `get_token_address` for AVAX. -/
def ZERO_ADDRESS : String := "0x0000000000000000000000000000000000000000"

/-- The `CurrencyType` enum of main.py. -/
inductive CurrencyType
  | AVAX
  | USDC
  | USDT
deriving DecidableEq, Repr

/-- String value of a `CurrencyType` member (`currency.value` in main.py). -/
def CurrencyType.name : CurrencyType → String
  | CurrencyType.AVAX => "AVAX"
  | CurrencyType.USDC => "USDC"
  | CurrencyType.USDT => "USDT"

/-- The `TaskStatus` enum of main.py. -/
inductive TaskStatus
  | CREATED
  | FUNDED
  | COMPLETED
  | DISPUTED
  | CANCELLED
deriving DecidableEq, Repr

/-- Integer value of a `TaskStatus` member (`status.value` in main.py). -/
def TaskStatus.value : TaskStatus → Nat
  | TaskStatus.CREATED => 0
  | TaskStatus.FUNDED => 1
  | TaskStatus.COMPLETED => 2
  | TaskStatus.DISPUTED => 3
  | TaskStatus.CANCELLED => 4

/-- Exact rational value of the Python `Decimal` whose digits are `num`
with `scale` fractional digits, i.e. `num / 10 ^ scale`.  All decimal
amounts entering the converters are represented this way. -/
def decVal (num scale : Nat) : ℚ := (num : ℚ) / 10 ^ scale

/-- `wei_to_ether` from main.py: `Decimal(str(wei)) / Decimal("1e18")`, exact. -/
def wei_to_ether (wei_amount : Nat) : ℚ := (wei_amount : ℚ) / 1000000000000000000

/-- Round-half-even (banker's rounding) of `a / b`, the rounding mode of the
`decimal` module's default context. -/
def roundHalfEvenDiv (a b : Nat) : Nat :=
  let q := a / b
  let r := a % b
  if 2 * r < b then q
  else if b < 2 * r then q + 1
  else if q % 2 = 0 then q else q + 1

/-- Decimal digit count, with an explicit structural fuel (`fuel ≥ n`
suffices, since the count is at most `n` for `n ≥ 1`) so that concrete runs
reduce in the kernel. -/
def numDigitsAux : Nat → Nat → Nat
  | 0, _ => 1
  | fuel + 1, n => if n < 10 then 1 else numDigitsAux fuel (n / 10) + 1

/-- Number of decimal digits of the coefficient `n` (1 for 0, as for the
`Decimal` coefficient "0"). -/
def numDigits (n : Nat) : Nat := numDigitsAux n n

/-- Python `int(Decimal(num, -scale) * (10 ** d))` under the `decimal`
module's default context (28 significant digits, ROUND_HALF_EVEN): the exact
product has coefficient `num * 10 ^ d` and exponent `-scale`; a coefficient
of more than 28 digits is rounded half-even to 28 digits (raising the
exponent by the number of digits dropped), and `int()` then truncates the
resulting value toward zero (`Nat` division for these non-negative values). -/
def decimal_mul_pow10_int (num scale d : Nat) : Nat :=
  let c := num * 10 ^ d
  if numDigits c ≤ 28 then
    c / 10 ^ scale
  else
    let sh := numDigits c - 28
    let c2 := roundHalfEvenDiv c (10 ^ sh)
    if scale ≤ sh then c2 * 10 ^ (sh - scale) else c2 / 10 ^ (scale - sh)

/-- `ether_to_wei` from main.py: `int(amount * Decimal("1000000000000000000"))`
with the decimal amount `num / 10 ^ scale`, under the default context. -/
def ether_to_wei (num scale : Nat) : Nat := decimal_mul_pow10_int num scale 18

/-- `token_to_base_unit` from main.py: `int(amount * (10 ** decimals))` with
the decimal amount `num / 10 ^ scale`, under the default context. -/
def token_to_base_unit (num scale : Nat) (decimals : Nat) : Nat :=
  decimal_mul_pow10_int num scale decimals

/-- `base_unit_to_token` from main.py: `Decimal(str(base)) / Decimal(str(10 ** decimals))`. -/
def base_unit_to_token (base_amount : Nat) (decimals : Nat) : ℚ :=
  (base_amount : ℚ) / 10 ^ decimals

/-- On-chain task record, the tuple returned by the contract's `getTask`
(fields in ABI order).  Handlers index into it positionally; the field
names here follow the ABI component names. -/
structure TaskRec where
  id : Nat
  client : String
  freelancer : String
  amount : Nat
  token : String
  status : Nat
  deadline : Nat
  createdAt : Nat
  fundedAt : Nat
  clientApproved : Bool
  freelancerDelivered : Bool
deriving DecidableEq, Repr

/-- The zeroed/default record Solidity returns for an unknown task id. -/
def zeroTask : TaskRec :=
  { id := 0, client := ZERO_ADDRESS, freelancer := ZERO_ADDRESS, amount := 0,
    token := ZERO_ADDRESS, status := 0, deadline := 0, createdAt := 0, fundedAt := 0,
    clientApproved := false, freelancerDelivered := false }

/-- Off-chain metadata entry (`task_metadata_db` values; the `TaskMetadata`
pydantic model guarantees `currency` is a valid `CurrencyType`). -/
structure TaskMetadata where
  title : String
  description : String
  currency : CurrencyType
deriving DecidableEq, Repr

/-- `get_token_address` from main.py. -/
def get_token_address : CurrencyType → String
  | CurrencyType.AVAX => ZERO_ADDRESS
  | CurrencyType.USDC => USDC_ADDRESS
  | CurrencyType.USDT => USDT_ADDRESS

/-- Python `str.lower()` on the ASCII strings handled here (hex addresses),
written structurally over the character list so concrete runs reduce in the
kernel. -/
def lower (s : String) : String := String.mk (s.data.map Char.toLower)

/-- A Python exception: either a `fastapi.HTTPException` (which carries a
status code and detail) or any other exception with its message. -/
inductive PyErr
  | httpExc (status : Nat) (detail : String)
  | exc (msg : String)
deriving DecidableEq, Repr

/-- Python `str(e)`: `starlette.HTTPException.__str__` renders
`"{status}: {detail}"`; a plain exception renders its message. -/
def errStr : PyErr → String
  | PyErr.httpExc status detail => toString status ++ ": " ++ detail
  | PyErr.exc msg => msg

/-- The blanket `except Exception as e: raise HTTPException(400, prefix + str(e))`
at the end of a handler.  Note it also catches `HTTPException`s raised inside
the `try`, replacing their status code with 400. -/
def catch_all {α : Type} (prefixMsg : String) : Except PyErr α → Except PyErr α
  | Except.ok v => Except.ok v
  | Except.error e => Except.error (PyErr.httpExc 400 (prefixMsg ++ errStr e))

/-- One chain-gateway call issued by a handler, recorded in program order.
`txCountCall k` is the k-th `w3.eth.get_transaction_count` read of the
request; `estimateGasCall` is a write-path gas estimation (`estimate_gas`)
for the named contract function, with the attached native value when the
call is payable. -/
inductive ChainCall
  | getTaskCall (id : Nat)
  | allowanceCall (owner spender : String)
  | estimateGasCall (fn : String) (value : Option Nat)
  | gasPriceCall
  | txCountCall (k : Nat)
deriving DecidableEq, Repr

/-- Write-path gas estimations recorded in a trace. -/
def isEstimate : ChainCall → Bool
  | ChainCall.estimateGasCall _ _ => true
  | _ => false

/-- Transaction-count reads recorded in a trace. -/
def isTxCountRead : ChainCall → Bool
  | ChainCall.txCountCall _ => true
  | _ => false

/-- Number of write-path gas estimations in a trace. -/
def countWriteEstimates (tr : List ChainCall) : Nat := (tr.filter isEstimate).length

/-- Decidable equality for `Except` results, so concrete handler runs can be
checked by `decide`. -/
instance {e a : Type} [DecidableEq e] [DecidableEq a] : DecidableEq (Except e a) := fun x y =>
  match x, y with
  | Except.ok v, Except.ok w => decidable_of_iff (v = w) (by simp)
  | Except.ok _, Except.error _ => isFalse (by simp)
  | Except.error _, Except.ok _ => isFalse (by simp)
  | Except.error v, Except.error w => decidable_of_iff (v = w) (by simp)

/-- The chain-gateway environment a handler runs against.  `txCount k` is
the value observed by the k-th transaction-count read (the chain may move
between reads).  `estGas fn value = none` models a failing (reverting) gas
estimation.  `gasPrice` is modelled as stable within one request. -/
structure Env where
  getTask : Nat → TaskRec
  metadata : Nat → Option TaskMetadata
  allowance : String → String → Nat
  txCount : Nat → Nat
  gasPrice : Nat
  estGas : String → Option Nat → Option Nat

/-- Unsigned transaction descriptor produced by `build_transaction`
(`'from'`, `'value'`, `'gas'`, `'gasPrice'`, `'nonce'`; the target address
and call data live in the surrounding response object). -/
structure TxData where
  sender : String
  value : Nat
  gas : Nat
  gasPrice : Nat
  nonce : Nat
deriving DecidableEq, Repr

/-- One entry of the ordered `instructions` list of the ERC-20 funding response. -/
structure InstrStep where
  step : Nat
  description : String
  contract_address : String
  function_name : String
  transaction_data : TxData
deriving DecidableEq, Repr

/-- Native (AVAX) funding response of `get_fund_instructions`. -/
structure NativeFundResp where
  contract_address : String
  function_name : String
  amount_avax : ℚ
  gas_estimate : Nat
  transaction_data : TxData
deriving DecidableEq, Repr

/-- ERC-20 funding response of `get_fund_instructions`. -/
structure TokenFundResp where
  currency : CurrencyType
  amount : Nat
  current_allowance : Nat
  instructions : List InstrStep
deriving DecidableEq, Repr

/-- Either shape of `get_fund_instructions` response. -/
inductive FundResp
  | native (r : NativeFundResp)
  | token (r : TokenFundResp)
deriving DecidableEq, Repr

/-- Body of the `POST /tasks/{task_id}/fund-instructions` handler (the inside
of its `try`), returning the response or the raised exception, together with
the ordered chain calls issued.  Mirrors main.py lines 865-969: getTask, the
client/status guards, metadata currency defaulting to AVAX, then either the
payable native build or the allowance-conditional approve+fund build.  In the
ERC-20 branch the approve nonce is `get_transaction_count` (read 0) and the
fund nonce is a second `get_transaction_count` read plus `1 if allowance <
amount else 0` (reads 1 and 0 respectively). -/
def get_fund_instructions_body (env : Env) (task_id : Nat) (caller : String) :
    Except PyErr FundResp × List ChainCall :=
  let task_data := env.getTask task_id
  let tr0 : List ChainCall := [ChainCall.getTaskCall task_id]
  if lower task_data.client ≠ lower caller then
    (Except.error (PyErr.httpExc 403 "Only task client can fund"), tr0)
  else if task_data.status ≠ TaskStatus.CREATED.value then
    (Except.error (PyErr.httpExc 400 "Task is not in created status"), tr0)
  else
    let currency := (Option.map TaskMetadata.currency (env.metadata task_id)).getD
      CurrencyType.AVAX
    let amount := task_data.amount
    match currency with
    | CurrencyType.AVAX =>
      match env.estGas "fundTask" (some amount) with
      | none =>
        (Except.error (PyErr.exc "fundTask gas estimation failed"),
         tr0 ++ [ChainCall.estimateGasCall "fundTask" (some amount)])
      | some gas_estimate =>
        let transaction_data : TxData :=
          { sender := caller, value := amount, gas := gas_estimate,
            gasPrice := env.gasPrice, nonce := env.txCount 0 }
        (Except.ok (FundResp.native
          { contract_address := CONTRACT_ADDRESS, function_name := "fundTask",
            amount_avax := wei_to_ether amount, gas_estimate := gas_estimate,
            transaction_data := transaction_data }),
         tr0 ++ [ChainCall.estimateGasCall "fundTask" (some amount),
                 ChainCall.gasPriceCall, ChainCall.txCountCall 0])
    | c =>
      let token_address := get_token_address c
      let allowance := env.allowance caller CONTRACT_ADDRESS
      let tr1 := tr0 ++ [ChainCall.allowanceCall caller CONTRACT_ADDRESS]
      if allowance < amount then
        match env.estGas "approve" none with
        | none =>
          (Except.error (PyErr.exc "approve gas estimation failed"),
           tr1 ++ [ChainCall.estimateGasCall "approve" none])
        | some approve_gas =>
          let approve_tx : TxData :=
            { sender := caller, value := 0, gas := approve_gas,
              gasPrice := env.gasPrice, nonce := env.txCount 0 }
          let step1 : InstrStep :=
            { step := 1, description := "Approve " ++ c.name ++ " spending",
              contract_address := token_address, function_name := "approve",
              transaction_data := approve_tx }
          match env.estGas "fundTask" none with
          | none =>
            (Except.error (PyErr.exc "fundTask gas estimation failed"),
             tr1 ++ [ChainCall.estimateGasCall "approve" none, ChainCall.gasPriceCall,
                     ChainCall.txCountCall 0, ChainCall.estimateGasCall "fundTask" none])
          | some fund_gas =>
            let fund_tx : TxData :=
              { sender := caller, value := 0, gas := fund_gas,
                gasPrice := env.gasPrice, nonce := env.txCount 1 + 1 }
            let step2 : InstrStep :=
              { step := 2, description := "Fund the task",
                contract_address := CONTRACT_ADDRESS, function_name := "fundTask",
                transaction_data := fund_tx }
            (Except.ok (FundResp.token
              { currency := c, amount := amount, current_allowance := allowance,
                instructions := [step1, step2] }),
             tr1 ++ [ChainCall.estimateGasCall "approve" none, ChainCall.gasPriceCall,
                     ChainCall.txCountCall 0, ChainCall.estimateGasCall "fundTask" none,
                     ChainCall.gasPriceCall, ChainCall.txCountCall 1])
      else
        match env.estGas "fundTask" none with
        | none =>
          (Except.error (PyErr.exc "fundTask gas estimation failed"),
           tr1 ++ [ChainCall.estimateGasCall "fundTask" none])
        | some fund_gas =>
          let fund_tx : TxData :=
            { sender := caller, value := 0, gas := fund_gas,
              gasPrice := env.gasPrice, nonce := env.txCount 0 }
          let stepF : InstrStep :=
            { step := 1, description := "Fund the task",
              contract_address := CONTRACT_ADDRESS, function_name := "fundTask",
              transaction_data := fund_tx }
          (Except.ok (FundResp.token
            { currency := c, amount := amount, current_allowance := allowance,
              instructions := [stepF] }),
           tr1 ++ [ChainCall.estimateGasCall "fundTask" none,
                   ChainCall.gasPriceCall, ChainCall.txCountCall 0])

/-- The full `POST /tasks/{task_id}/fund-instructions` handler: the body
wrapped in the blanket `except Exception` re-raise. -/
def get_fund_instructions (env : Env) (task_id : Nat) (caller : String) :
    Except PyErr FundResp × List ChainCall :=
  let r := get_fund_instructions_body env task_id caller
  (catch_all "Failed to get funding instructions: " r.1, r.2)

/-- Single-descriptor response shape of the deliver/approve handlers. -/
structure SimpleResp where
  contract_address : String
  function_name : String
  transaction_data : TxData
deriving DecidableEq, Repr

/-- Body of `POST /tasks/{task_id}/deliver` (main.py lines 975-1006):
freelancer-only, Funded-only, then a single `markDelivered` descriptor. -/
def mark_delivered_instructions_body (env : Env) (task_id : Nat) (caller : String) :
    Except PyErr SimpleResp × List ChainCall :=
  let task_data := env.getTask task_id
  let tr0 : List ChainCall := [ChainCall.getTaskCall task_id]
  if lower task_data.freelancer ≠ lower caller then
    (Except.error (PyErr.httpExc 403 "Only freelancer can mark as delivered"), tr0)
  else if task_data.status ≠ TaskStatus.FUNDED.value then
    (Except.error (PyErr.httpExc 400 "Task is not funded"), tr0)
  else
    match env.estGas "markDelivered" none with
    | none =>
      (Except.error (PyErr.exc "markDelivered gas estimation failed"),
       tr0 ++ [ChainCall.estimateGasCall "markDelivered" none])
    | some gas_estimate =>
      let tx : TxData :=
        { sender := caller, value := 0, gas := gas_estimate,
          gasPrice := env.gasPrice, nonce := env.txCount 0 }
      (Except.ok { contract_address := CONTRACT_ADDRESS,
                   function_name := "markDelivered", transaction_data := tx },
       tr0 ++ [ChainCall.estimateGasCall "markDelivered" none, ChainCall.gasPriceCall,
               ChainCall.txCountCall 0])

/-- Body of `POST /tasks/{task_id}/approve` (main.py lines 1012-1043):
client-only, Funded-only, then a single `approveTask` descriptor. -/
def approve_task_instructions_body (env : Env) (task_id : Nat) (caller : String) :
    Except PyErr SimpleResp × List ChainCall :=
  let task_data := env.getTask task_id
  let tr0 : List ChainCall := [ChainCall.getTaskCall task_id]
  if lower task_data.client ≠ lower caller then
    (Except.error (PyErr.httpExc 403 "Only client can approve task"), tr0)
  else if task_data.status ≠ TaskStatus.FUNDED.value then
    (Except.error (PyErr.httpExc 400 "Task is not funded"), tr0)
  else
    match env.estGas "approveTask" none with
    | none =>
      (Except.error (PyErr.exc "approveTask gas estimation failed"),
       tr0 ++ [ChainCall.estimateGasCall "approveTask" none])
    | some gas_estimate =>
      let tx : TxData :=
        { sender := caller, value := 0, gas := gas_estimate,
          gasPrice := env.gasPrice, nonce := env.txCount 0 }
      (Except.ok { contract_address := CONTRACT_ADDRESS,
                   function_name := "approveTask", transaction_data := tx },
       tr0 ++ [ChainCall.estimateGasCall "approveTask" none, ChainCall.gasPriceCall,
               ChainCall.txCountCall 0])

/-- The three state-guarded write-instruction operations of the lifecycle table. -/
inductive Op
  | fund
  | deliver
  | approve
deriving DecidableEq, Repr

/-- Dispatch an operation to its builder, keeping the error and the chain-call
trace (the success payloads have different shapes and are erased). -/
def build_op (env : Env) (op : Op) (task_id : Nat) (caller : String) :
    Except PyErr Unit × List ChainCall :=
  match op with
  | Op.fund =>
    let r := get_fund_instructions_body env task_id caller
    (r.1.map fun _ => (), r.2)
  | Op.deliver =>
    let r := mark_delivered_instructions_body env task_id caller
    (r.1.map fun _ => (), r.2)
  | Op.approve =>
    let r := approve_task_instructions_body env task_id caller
    (r.1.map fun _ => (), r.2)

/-- The valid (operation, state, role) triples of the spec's lifecycle table:
fund needs Created + client, markDelivered needs Funded + freelancer,
approve needs Funded + client (addresses compared case-insensitively). -/
def validOp : Op → TaskRec → String → Bool
  | Op.fund, t, caller => t.status == 0 && (lower caller == lower t.client)
  | Op.deliver, t, caller => t.status == 1 && (lower caller == lower t.freelancer)
  | Op.approve, t, caller => t.status == 1 && (lower caller == lower t.client)

/-- Response of `GET /tasks/{task_id}` (presentational fields — metadata echo,
status name, ISO timestamps — omitted; `amount` is the converted decimal the
handler stringifies). -/
structure TaskView where
  id : Nat
  client : String
  freelancer : String
  amount : ℚ
  amount_raw : Nat
  token_address : String
  status_code : Nat
  client_approved : Bool
  freelancer_delivered : Bool
  currency : CurrencyType
deriving DecidableEq, Repr

/-- Body of `GET /tasks/{task_id}` (main.py lines 1081-1120): getTask, the
`not in [client, freelancer]` authorization guard raising 403, metadata
currency defaulting to AVAX, amount converted at 18 decimals for AVAX and a
hardcoded 6 for tokens. -/
def get_task_body (env : Env) (task_id : Nat) (caller : String) :
    Except PyErr TaskView :=
  let task_data := env.getTask task_id
  if lower caller ≠ lower task_data.client ∧
     lower caller ≠ lower task_data.freelancer then
    Except.error (PyErr.httpExc 403 "Not authorized to view this task")
  else
    let currency := (Option.map TaskMetadata.currency (env.metadata task_id)).getD
      CurrencyType.AVAX
    let amount : ℚ :=
      if currency = CurrencyType.AVAX then wei_to_ether task_data.amount
      else base_unit_to_token task_data.amount 6
    Except.ok
      { id := task_data.id, client := task_data.client,
        freelancer := task_data.freelancer, amount := amount,
        amount_raw := task_data.amount, token_address := task_data.token,
        status_code := task_data.status, client_approved := task_data.clientApproved,
        freelancer_delivered := task_data.freelancerDelivered, currency := currency }

/-- The full `GET /tasks/{task_id}` handler: body wrapped in the blanket
`except Exception` re-raise (which converts the inner 403 into a 400). -/
def get_task (env : Env) (task_id : Nat) (caller : String) : Except PyErr TaskView :=
  catch_all "Failed to get task: " (get_task_body env task_id caller)

/-- In-memory `User` record (main.py pydantic `User`; the uuid is modelled as
a caller-supplied fresh identifier, `created_at` omitted). -/
structure User where
  id : Nat
  wallet_address : String
  email : Option String
  is_freelancer : Bool
deriving DecidableEq, Repr

/-- Body of `POST /users/register` requests (`UserRegistration` model). -/
structure UserRegistration where
  wallet_address : String
  email : Option String
  is_freelancer : Bool
deriving DecidableEq, Repr

/-- Hex digit test used by `w3.is_address`. -/
def isHexChar (c : Char) : Bool :=
  c.isDigit || (decide ('a' ≤ c) && decide (c ≤ 'f')) ||
  (decide ('A' ≤ c) && decide (c ≤ 'F'))

/-- Python `s.startswith("0x")`, structurally over the character list. -/
def startsWith0x (s : String) : Bool :=
  match s.data with
  | '0' :: 'x' :: _ => true
  | _ => false

/-- Python `len(s)` for the ASCII strings handled here. -/
def strLen (s : String) : Nat := s.data.length

/-- `w3.is_address` restricted to the lower-cased strings the handlers feed
it: a 0x-prefixed 42-character hex string. -/
def is_address (s : String) : Bool :=
  startsWith0x s && strLen s == 42 && (s.data.drop 2).all isHexChar

/-- Lookup in the `users_db` map, keyed by lower-cased wallet address. -/
def db_lookup (db : List (String × User)) (k : String) : Option User :=
  match db with
  | [] => none
  | (k2, u) :: rest => if k2 = k then some u else db_lookup rest k

/-- `POST /users/register` (main.py lines 684-711): lower-case the address,
validate its format, then get-or-create in `users_db`.  `fresh_id` is the
uuid that would be generated if a new record is created. -/
def register_user (db : List (String × User)) (fresh_id : Nat)
    (user_data : UserRegistration) : Except PyErr User × List (String × User) :=
  let wallet_address := lower user_data.wallet_address
  if ¬ startsWith0x wallet_address ∨ strLen wallet_address ≠ 42 then
    (Except.error (PyErr.httpExc 400 "Invalid wallet address format"), db)
  else if ¬ is_address wallet_address then
    (Except.error (PyErr.httpExc 400 "Invalid wallet address"), db)
  else
    match db_lookup db wallet_address with
    | some u => (Except.ok u, db)
    | none =>
      let u : User := { id := fresh_id, wallet_address := wallet_address,
                        email := user_data.email,
                        is_freelancer := user_data.is_freelancer }
      (Except.ok u, (wallet_address, u) :: db)

/-- Bearer authentication `get_current_user` (main.py lines 435-463): the
token is the wallet address; lower-case, validate, get-or-create in the same
`users_db` map as registration. -/
def get_current_user (db : List (String × User)) (fresh_id : Nat) (token : String) :
    Except PyErr User × List (String × User) :=
  if token = "" then
    (Except.error (PyErr.httpExc 401 "No authentication token provided"), db)
  else
    let wallet_address := lower token
    if ¬ startsWith0x wallet_address ∨ strLen wallet_address ≠ 42 then
      (Except.error (PyErr.httpExc 401 "Invalid wallet address format"), db)
    else if ¬ is_address wallet_address then
      (Except.error (PyErr.httpExc 401 "Invalid wallet address"), db)
    else
      match db_lookup db wallet_address with
      | some u => (Except.ok u, db)
      | none =>
        let u : User := { id := fresh_id, wallet_address := wallet_address,
                          email := none, is_freelancer := false }
        (Except.ok u, (wallet_address, u) :: db)

/-- Gateway environment for `GET /users/profile`: each independent lookup
either yields a value or fails (`none`); `contractOk = false` models
`get_escrow_contract` itself raising, which defaults both task lists. -/
structure ProfileEnv where
  contractOk : Bool
  clientTasks : Option (List Nat)
  freelancerTasks : Option (List Nat)
  nativeBalance : Option Nat
  usdcBalance : Option Nat
  usdtBalance : Option Nat

/-- Response of `GET /users/profile` (balances kept as the exact decimals the
handler stringifies). -/
structure ProfileResp where
  user : User
  client_tasks_count : Nat
  freelancer_tasks_count : Nat
  total_tasks : Nat
  balance_AVAX : ℚ
  balance_USDC : ℚ
  balance_USDT : ℚ
deriving DecidableEq, Repr

/-- `GET /users/profile` (main.py lines 713-791): every sub-lookup is wrapped
in its own `try`, defaulting to an empty list or zero balance on failure. -/
def get_user_profile (env : ProfileEnv) (current_user : User) :
    Except PyErr ProfileResp :=
  let client_tasks := (if env.contractOk then env.clientTasks else none).getD []
  let freelancer_tasks := (if env.contractOk then env.freelancerTasks else none).getD []
  let balance_AVAX : ℚ := (env.nativeBalance.map wei_to_ether).getD 0
  let balance_USDC : ℚ := (env.usdcBalance.map (fun b => base_unit_to_token b 6)).getD 0
  let balance_USDT : ℚ := (env.usdtBalance.map (fun b => base_unit_to_token b 6)).getD 0
  Except.ok
    { user := current_user,
      client_tasks_count := client_tasks.length,
      freelancer_tasks_count := freelancer_tasks.length,
      total_tasks := client_tasks.length + freelancer_tasks.length,
      balance_AVAX := balance_AVAX, balance_USDC := balance_USDC,
      balance_USDT := balance_USDT }

/-- Concrete client address used in the concrete scenarios below. -/
def addrA : String := "0xaaaaaaaaaaaaaaaaaaaaaaaaaaaaaaaaaaaaaaaa"

/-- Concrete freelancer address. -/
def addrB : String := "0xbbbbbbbbbbbbbbbbbbbbbbbbbbbbbbbbbbbbbbbb"

/-- Concrete third-party address (neither client nor freelancer). -/
def addrC : String := "0xcccccccccccccccccccccccccccccccccccccccc"

/-- Task 7 of the spec's end-to-end scenario: Created, client `addrA`,
stablecoin task of 5_000_000 base units. -/
def task7 : TaskRec :=
  { id := 7, client := addrA, freelancer := addrB, amount := 5000000,
    token := USDC_ADDRESS, status := 0, deadline := 1900000000,
    createdAt := 1700000000, fundedAt := 0, clientApproved := false,
    freelancerDelivered := false }

/-- Environment for task 7 with zero allowance in which the chain moves
between the two transaction-count reads of one funding request: the first
read observes 5, the second observes 7. -/
def envDrift : Env :=
  { getTask := fun _ => task7,
    metadata := fun _ => some { title := "t", description := "d",
                                currency := CurrencyType.USDC },
    allowance := fun _ _ => 0,
    txCount := fun k => if k = 0 then 5 else 7,
    gasPrice := 25000000000,
    estGas := fun _ _ => some 60000 }

/-- Same environment with a stable transaction count of 5. -/
def envStable : Env :=
  { getTask := fun _ => task7,
    metadata := fun _ => some { title := "t", description := "d",
                                currency := CurrencyType.USDC },
    allowance := fun _ _ => 0,
    txCount := fun _ => 5,
    gasPrice := 25000000000,
    estGas := fun _ _ => some 60000 }

/-- Native-coin variant of task 7: 2 AVAX (2 * 10^18 wei), zero token address. -/
def taskNative : TaskRec :=
  { id := 7, client := addrA, freelancer := addrB, amount := 2000000000000000000,
    token := ZERO_ADDRESS, status := 0, deadline := 1900000000,
    createdAt := 1700000000, fundedAt := 0, clientApproved := false,
    freelancerDelivered := false }

/-- Environment for the native-coin scenario (no metadata entry, so the
currency tag defaults to AVAX). -/
def envNative : Env :=
  { getTask := fun _ => taskNative,
    metadata := fun _ => none,
    allowance := fun _ _ => 0,
    txCount := fun _ => 4,
    gasPrice := 25000000000,
    estGas := fun _ _ => some 21000 }

/-- A task whose on-chain token field is the USDC contract but which has no
off-chain metadata entry. -/
def taskNoMeta : TaskRec :=
  { id := 9, client := addrA, freelancer := addrB, amount := 5000000,
    token := USDC_ADDRESS, status := 0, deadline := 1900000000,
    createdAt := 1700000000, fundedAt := 0, clientApproved := false,
    freelancerDelivered := false }

/-- Environment with no metadata for any task. -/
def envNoMeta : Env :=
  { getTask := fun _ => taskNoMeta,
    metadata := fun _ => none,
    allowance := fun _ _ => 0,
    txCount := fun _ => 4,
    gasPrice := 25000000000,
    estGas := fun _ _ => some 21000 }

/-- Environment in which the contract returns the zeroed/default record for
every task id (i.e. every id is unknown). -/
def envZero : Env :=
  { getTask := fun _ => zeroTask,
    metadata := fun _ => none,
    allowance := fun _ _ => 0,
    txCount := fun _ => 0,
    gasPrice := 0,
    estGas := fun _ _ => none }

/-- Funded variant of task 7 (wrong state for funding). -/
def task7Funded : TaskRec :=
  { id := 7, client := addrA, freelancer := addrB, amount := 5000000,
    token := USDC_ADDRESS, status := 1, deadline := 1900000000,
    createdAt := 1700000000, fundedAt := 1700000500, clientApproved := false,
    freelancerDelivered := false }

/-- Environment whose task 7 is already Funded. -/
def envFunded : Env :=
  { getTask := fun _ => task7Funded,
    metadata := fun _ => none,
    allowance := fun _ _ => 0,
    txCount := fun _ => 4,
    gasPrice := 25000000000,
    estGas := fun _ _ => some 21000 }

/-- Profile environment where the native-balance call fails but both token
balance calls succeed. -/
def profileEnvPartial : ProfileEnv :=
  { contractOk := true,
    clientTasks := some [1, 2],
    freelancerTasks := some [3],
    nativeBalance := none,
    usdcBalance := some 12500000,
    usdtBalance := some 42 }

/-- A registered user record for the profile scenario. -/
def userA : User :=
  { id := 11, wallet_address := addrA, email := none, is_freelancer := false }

/-- Registration payload with a checksummed (mixed-case) spelling of `addrA`. -/
def regUpper : UserRegistration :=
  { wallet_address := "0xAAaaAAaaAAaaAAaaAAaaAAaaAAaaAAaaAAaaAAaa",
    email := some "a@example.com", is_freelancer := false }

/-- Registration payload with the lower-case spelling of the same address. -/
def regLower : UserRegistration :=
  { wallet_address := addrA, email := none, is_freelancer := true }

/-- Claim C2: for an ERC-20 fund-instruction build (currency tag a token) by
the client of a Created task: if the current allowance to the escrow contract
is below the task amount the response is the ordered list [approve descriptor,
fundTask descriptor]; if the allowance covers the amount the response is
exactly one fundTask descriptor at the base nonce (the transaction count
observed by the single read), with no approve descriptor. -/
theorem fund_erc20_allowance_branches (env : Env) (task_id : Nat) (caller : String)
    (c : CurrencyType) (ga gf : Nat)
    (hrole : lower (env.getTask task_id).client = lower caller)
    (hstatus : (env.getTask task_id).status = 0)
    (hcur : (Option.map TaskMetadata.currency (env.metadata task_id)).getD
      CurrencyType.AVAX = c)
    (hne : c ≠ CurrencyType.AVAX)
    (hga : env.estGas "approve" none = some ga)
    (hgf : env.estGas "fundTask" none = some gf) :
    (env.allowance caller CONTRACT_ADDRESS < (env.getTask task_id).amount →
      (get_fund_instructions_body env task_id caller).1 = Except.ok (FundResp.token
        { currency := c, amount := (env.getTask task_id).amount,
          current_allowance := env.allowance caller CONTRACT_ADDRESS,
          instructions := [{ step := 1,
                             description := "Approve " ++ c.name ++ " spending",
                             contract_address := get_token_address c,
                             function_name := "approve",
                             transaction_data := { sender := caller, value := 0,
                                                   gas := ga,
                                                   gasPrice := env.gasPrice,
                                                   nonce := env.txCount 0 } },
                           { step := 2, description := "Fund the task",
                             contract_address := CONTRACT_ADDRESS,
                             function_name := "fundTask",
                             transaction_data := { sender := caller, value := 0,
                                                   gas := gf,
                                                   gasPrice := env.gasPrice,
                                                   nonce := env.txCount 1 + 1 } }] }))
    ∧ ((env.getTask task_id).amount ≤ env.allowance caller CONTRACT_ADDRESS →
      (get_fund_instructions_body env task_id caller).1 = Except.ok (FundResp.token
        { currency := c, amount := (env.getTask task_id).amount,
          current_allowance := env.allowance caller CONTRACT_ADDRESS,
          instructions := [{ step := 1, description := "Fund the task",
                             contract_address := CONTRACT_ADDRESS,
                             function_name := "fundTask",
                             transaction_data := { sender := caller, value := 0,
                                                   gas := gf,
                                                   gasPrice := env.gasPrice,
                                                   nonce := env.txCount 0 } }] })) := by
  cases c with
  | AVAX => exact absurd rfl hne
  | USDC =>
    constructor
    · intro hlt
      simp [get_fund_instructions_body, hrole, hstatus, hcur, hga, hgf,
            TaskStatus.value, hlt, CurrencyType.name]
    · intro hge
      have hnlt : ¬ env.allowance caller CONTRACT_ADDRESS <
          (env.getTask task_id).amount := not_lt.mpr hge
      simp [get_fund_instructions_body, hrole, hstatus, hcur, hga, hgf,
            TaskStatus.value, hnlt]
  | USDT =>
    constructor
    · intro hlt
      simp [get_fund_instructions_body, hrole, hstatus, hcur, hga, hgf,
            TaskStatus.value, hlt, CurrencyType.name]
    · intro hge
      have hnlt : ¬ env.allowance caller CONTRACT_ADDRESS <
          (env.getTask task_id).amount := not_lt.mpr hge
      simp [get_fund_instructions_body, hrole, hstatus, hcur, hga, hgf,
            TaskStatus.value, hnlt]

/-- Witness for `fund_erc20_allowance_branches`: the spec end-to-end scenario
(task 7, USDC, amount 5_000_000 base units, allowance 0) in environment
`envDrift`, exercising the allowance-below-amount branch. -/
theorem fund_erc20_allowance_branches_witness :
    lower (envDrift.getTask 7).client = lower addrA
    ∧ (envDrift.getTask 7).status = 0
    ∧ (Option.map TaskMetadata.currency (envDrift.metadata 7)).getD
        CurrencyType.AVAX = CurrencyType.USDC
    ∧ CurrencyType.USDC ≠ CurrencyType.AVAX
    ∧ envDrift.estGas "approve" none = some 60000
    ∧ envDrift.estGas "fundTask" none = some 60000
    ∧ envDrift.allowance addrA CONTRACT_ADDRESS < (envDrift.getTask 7).amount
    ∧ (get_fund_instructions_body envDrift 7 addrA).1 = Except.ok (FundResp.token
        { currency := CurrencyType.USDC, amount := (envDrift.getTask 7).amount,
          current_allowance := envDrift.allowance addrA CONTRACT_ADDRESS,
          instructions := [{ step := 1,
                             description := "Approve " ++ CurrencyType.USDC.name ++ " spending",
                             contract_address := get_token_address CurrencyType.USDC,
                             function_name := "approve",
                             transaction_data := { sender := addrA, value := 0,
                                                   gas := 60000,
                                                   gasPrice := envDrift.gasPrice,
                                                   nonce := envDrift.txCount 0 } },
                           { step := 2, description := "Fund the task",
                             contract_address := CONTRACT_ADDRESS,
                             function_name := "fundTask",
                             transaction_data := { sender := addrA, value := 0,
                                                   gas := 60000,
                                                   gasPrice := envDrift.gasPrice,
                                                   nonce := envDrift.txCount 1 + 1 } }] }) :=
  ⟨by decide, by decide, by decide, by decide, rfl, rfl, by decide,
   (fund_erc20_allowance_branches envDrift 7 addrA CurrencyType.USDC 60000 60000
      (by decide) (by decide) (by decide) (by decide) rfl rfl).1 (by decide)⟩

/-- Claim C6: for every (operation, state, role) triple not listed as valid in
the lifecycle table, the instruction builder refuses with the role error (403
Unauthorized) or the state error (400, wrong lifecycle status) raised before
any work, and issues no write-path gas-estimation chain call. -/
theorem state_guard_exhaustive (env : Env) (op : Op) (task_id : Nat) (caller : String)
    (hinv : validOp op (env.getTask task_id) caller = false) :
    ∃ e, (build_op env op task_id caller).1 = Except.error e
      ∧ (e = PyErr.httpExc 403 "Only task client can fund"
         ∨ e = PyErr.httpExc 403 "Only freelancer can mark as delivered"
         ∨ e = PyErr.httpExc 403 "Only client can approve task"
         ∨ e = PyErr.httpExc 400 "Task is not in created status"
         ∨ e = PyErr.httpExc 400 "Task is not funded")
      ∧ countWriteEstimates (build_op env op task_id caller).2 = 0 := by
  cases op with
  | fund =>
    by_cases hr : lower caller = lower (env.getTask task_id).client
    · have hs : ¬ (env.getTask task_id).status = 0 := by
        simpa [validOp, hr] using hinv
      refine ⟨PyErr.httpExc 400 "Task is not in created status", ?_, by simp, ?_⟩
      · simp [build_op, get_fund_instructions_body, hr, hs, TaskStatus.value, Except.map]
      · simp [build_op, get_fund_instructions_body, hr, hs, TaskStatus.value,
              countWriteEstimates, isEstimate]
    · have hcl : lower (env.getTask task_id).client ≠ lower caller := by
        intro hh
        exact hr hh.symm
      refine ⟨PyErr.httpExc 403 "Only task client can fund", ?_, by simp, ?_⟩
      · simp [build_op, get_fund_instructions_body, hcl, Except.map]
      · simp [build_op, get_fund_instructions_body, hcl, countWriteEstimates, isEstimate]
  | deliver =>
    by_cases hr : lower caller = lower (env.getTask task_id).freelancer
    · have hs : ¬ (env.getTask task_id).status = 1 := by
        simpa [validOp, hr] using hinv
      refine ⟨PyErr.httpExc 400 "Task is not funded", ?_, by simp, ?_⟩
      · simp [build_op, mark_delivered_instructions_body, hr, hs, TaskStatus.value, Except.map]
      · simp [build_op, mark_delivered_instructions_body, hr, hs, TaskStatus.value,
              countWriteEstimates, isEstimate]
    · have hcl : lower (env.getTask task_id).freelancer ≠ lower caller := by
        intro hh
        exact hr hh.symm
      refine ⟨PyErr.httpExc 403 "Only freelancer can mark as delivered", ?_, by simp, ?_⟩
      · simp [build_op, mark_delivered_instructions_body, hcl, Except.map]
      · simp [build_op, mark_delivered_instructions_body, hcl, countWriteEstimates,
              isEstimate]
  | approve =>
    by_cases hr : lower caller = lower (env.getTask task_id).client
    · have hs : ¬ (env.getTask task_id).status = 1 := by
        simpa [validOp, hr] using hinv
      refine ⟨PyErr.httpExc 400 "Task is not funded", ?_, by simp, ?_⟩
      · simp [build_op, approve_task_instructions_body, hr, hs, TaskStatus.value, Except.map]
      · simp [build_op, approve_task_instructions_body, hr, hs, TaskStatus.value,
              countWriteEstimates, isEstimate]
    · have hcl : lower (env.getTask task_id).client ≠ lower caller := by
        intro hh
        exact hr hh.symm
      refine ⟨PyErr.httpExc 403 "Only client can approve task", ?_, by simp, ?_⟩
      · simp [build_op, approve_task_instructions_body, hcl, Except.map]
      · simp [build_op, approve_task_instructions_body, hcl, countWriteEstimates,
              isEstimate]

/-- Witness for `state_guard_exhaustive`: funding already-Funded task 7 in
environment `envFunded`, requested by its client, is refused with the
state error and no gas estimation. -/
theorem state_guard_exhaustive_witness :
    validOp Op.fund (envFunded.getTask 7) addrA = false
    ∧ ∃ e, (build_op envFunded Op.fund 7 addrA).1 = Except.error e
      ∧ (e = PyErr.httpExc 403 "Only task client can fund"
         ∨ e = PyErr.httpExc 403 "Only freelancer can mark as delivered"
         ∨ e = PyErr.httpExc 403 "Only client can approve task"
         ∨ e = PyErr.httpExc 400 "Task is not in created status"
         ∨ e = PyErr.httpExc 400 "Task is not funded")
      ∧ countWriteEstimates (build_op envFunded Op.fund 7 addrA).2 = 0 :=
  ⟨by decide, state_guard_exhaustive envFunded Op.fund 7 addrA (by decide)⟩

end Escrow

namespace Escrow

/-- Claim C4, counterexample: the program can round UP on reachable inputs.
For a = 0.9999999999999999999999999999995 (31 significant digits) and d = 6,
the exact truncation at 6 fractional digits is 999999, but the decimal
context first rounds the product half-even to 28 significant digits, so
`toBaseUnits` returns 1000000 and the round trip through `toDecimal` exceeds
a — refuting "truncates toward zero ... and never rounds up" as universally
stated. -/
theorem toBaseUnits_rounds_up_run :
    token_to_base_unit 9999999999999999999999999999995 31 6 = 1000000
    ∧ 9999999999999999999999999999995 * 10 ^ 6 / 10 ^ 31 = 999999
    ∧ base_unit_to_token 1000000 6 > decVal 9999999999999999999999999999995 31 := by
  refine ⟨by decide, by decide, ?_⟩
  unfold base_unit_to_token decVal
  rw [gt_iff_lt, div_lt_div_iff₀ (by positivity) (by positivity)]
  norm_num

/-- Claim C4, amended: for every non-negative decimal amount
`a = num / 10 ^ scale` and decimals count `d` such that the exact product
coefficient `num * 10 ^ d` fits in the context's 28 significant digits,
`token_to_base_unit` truncates toward zero (its result never exceeds the
exact product `a * 10 ^ d`, never rounds up), the round trip through
`base_unit_to_token` never exceeds `a`, `ether_to_wei` is the same conversion
at 18 decimals, and `toBaseUnits(1.0000005, 6) = 1000000`, not `1000001`.
Beyond 28 significant digits the context rounds the product half-even first
and can round up (see `toBaseUnits_rounds_up_run`). -/
theorem toBaseUnits_truncates_within_context (num scale d : Nat)
    (hprec : numDigits (num * 10 ^ d) ≤ 28) :
    (token_to_base_unit num scale d : ℚ) ≤ decVal num scale * 10 ^ d
    ∧ base_unit_to_token (token_to_base_unit num scale d) d ≤ decVal num scale
    ∧ ether_to_wei num scale = token_to_base_unit num scale 18
    ∧ token_to_base_unit 10000005 7 6 = 1000000 := by
  have hpow : (0 : ℚ) < 10 ^ d := by positivity
  have hval : token_to_base_unit num scale d = num * 10 ^ d / 10 ^ scale := by
    unfold token_to_base_unit decimal_mul_pow10_int
    simp [hprec]
  have h1 : (token_to_base_unit num scale d : ℚ) ≤ decVal num scale * 10 ^ d := by
    rw [hval]
    unfold decVal
    calc ((num * 10 ^ d / 10 ^ scale : Nat) : ℚ)
        ≤ ((num * 10 ^ d : Nat) : ℚ) / ((10 ^ scale : Nat) : ℚ) := Nat.cast_div_le
      _ = (num : ℚ) / 10 ^ scale * 10 ^ d := by push_cast; ring
  refine ⟨h1, ?_, rfl, by decide⟩
  unfold base_unit_to_token
  rw [div_le_iff₀ hpow]
  exact h1

/-- Witness for `toBaseUnits_truncates_within_context` at the spec's own
example a = 1.0000005 (num 10000005, scale 7), d = 6: the 14-digit product
coefficient is within the 28-digit context. -/
theorem toBaseUnits_truncates_within_context_witness :
    numDigits (10000005 * 10 ^ 6) ≤ 28
    ∧ ((token_to_base_unit 10000005 7 6 : ℚ) ≤ decVal 10000005 7 * 10 ^ 6
       ∧ base_unit_to_token (token_to_base_unit 10000005 7 6) 6 ≤ decVal 10000005 7
       ∧ ether_to_wei 10000005 7 = token_to_base_unit 10000005 7 18
       ∧ token_to_base_unit 10000005 7 6 = 1000000) :=
  ⟨by decide, toBaseUnits_truncates_within_context 10000005 7 6 (by decide)⟩

/-- Claim C1: the code violates the claim.  In an ERC-20 funding build with
allowance below the amount, the handler derives the two nonces from TWO
separate `get_transaction_count` reads (not one): approve nonce = first read,
fund nonce = second read + 1.  Evaluated in an environment where the chain
moves between the reads (first read 5, second read 7), the descriptors carry
nonces 5 and 8 — not strictly-increasing-by-one as the claim requires — and
the trace records two transaction-count reads. -/
theorem fund_nonce_two_reads_run :
    (get_fund_instructions_body envDrift 7 addrA).1 = Except.ok (FundResp.token
      { currency := CurrencyType.USDC, amount := 5000000, current_allowance := 0,
        instructions := [{ step := 1, description := "Approve USDC spending",
                           contract_address := USDC_ADDRESS, function_name := "approve",
                           transaction_data := { sender := addrA, value := 0, gas := 60000,
                                                 gasPrice := 25000000000, nonce := 5 } },
                         { step := 2, description := "Fund the task",
                           contract_address := CONTRACT_ADDRESS, function_name := "fundTask",
                           transaction_data := { sender := addrA, value := 0, gas := 60000,
                                                 gasPrice := 25000000000, nonce := 8 } }] })
    ∧ (get_fund_instructions_body envDrift 7 addrA).2.filter isTxCountRead =
        [ChainCall.txCountCall 0, ChainCall.txCountCall 1]
    ∧ (8 : Nat) ≠ 5 + 1 := by
  refine ⟨by decide, by decide, by decide⟩

/-- Claim C7: the code violates the claim.  For a caller who is neither the
task's client nor its freelancer, the `GET /tasks/{id}` body does raise the
403 Unauthorized error, but the handler's blanket `except Exception` catches
it and re-raises it as a 400, so 400 — not 403 — is the status the client
receives. -/
theorem get_task_unauthorized_status_run :
    get_task_body envDrift 7 addrC =
      Except.error (PyErr.httpExc 403 "Not authorized to view this task")
    ∧ get_task envDrift 7 addrC =
      Except.error (PyErr.httpExc 400
        "Failed to get task: 403: Not authorized to view this task") := by
  refine ⟨by decide, by decide⟩

/-- Claim C3, counterexample: when the contract returns the zeroed/default
record, no endpoint fails with a TaskNotFound error — there is no explicit
zeroed-record check.  A caller presenting the zero address even reads the
unknown task successfully, and any other caller gets the authorization error
(wrapped to 400), not a not-found error. -/
theorem zeroed_task_read_succeeds :
    get_task_body envZero 42 ZERO_ADDRESS = Except.ok
      { id := 0, client := ZERO_ADDRESS, freelancer := ZERO_ADDRESS, amount := 0,
        amount_raw := 0, token_address := ZERO_ADDRESS, status_code := 0,
        client_approved := false, freelancer_delivered := false,
        currency := CurrencyType.AVAX }
    ∧ get_task envZero 42 addrC =
      Except.error (PyErr.httpExc 400
        "Failed to get task: 403: Not authorized to view this task") := by
  refine ⟨?_, by decide⟩
  simp only [get_task_body, envZero, zeroTask]
  norm_num [lower, ZERO_ADDRESS, wei_to_ether]

/-- Claim C3, amended: task-id reads perform no explicit zeroed-record check
and there is no TaskNotFound error kind.  A zeroed record is processed like
any task: its client and freelancer are the zero address, so a caller other
than the zero address fails the role guard (403 Unauthorized, wrapped to 400
by the blanket handler), and a caller presenting the zero address reads the
zeroed record successfully. -/
theorem zeroed_task_no_explicit_check (env : Env) (task_id : Nat) (caller : String)
    (hz : env.getTask task_id = zeroTask) :
    (lower caller ≠ ZERO_ADDRESS →
      get_task_body env task_id caller =
        Except.error (PyErr.httpExc 403 "Not authorized to view this task")
      ∧ (get_fund_instructions_body env task_id caller).1 =
        Except.error (PyErr.httpExc 403 "Only task client can fund"))
    ∧ (lower caller = ZERO_ADDRESS →
      ∃ v, get_task_body env task_id caller = Except.ok v) := by
  have hcl : lower zeroTask.client = ZERO_ADDRESS := by decide
  have hfr : lower zeroTask.freelancer = ZERO_ADDRESS := by decide
  constructor
  · intro h
    constructor
    · simp [get_task_body, hz, hcl, hfr, h]
    · simp [get_fund_instructions_body, hz, hcl, Ne.symm h]
  · intro h
    have hguard : ¬ (lower caller ≠ lower zeroTask.client ∧
        lower caller ≠ lower zeroTask.freelancer) := by
      intro hc
      exact hc.1 (by rw [h, hcl])
    exact ⟨_, by
      simp only [get_task_body, hz]
      rw [if_neg hguard]⟩

/-- Witness for `zeroed_task_no_explicit_check` at the concrete environment
`envZero` (every id unknown) with the third-party caller `addrC`. -/
theorem zeroed_task_no_explicit_check_witness :
    envZero.getTask 42 = zeroTask
    ∧ ((lower addrC ≠ ZERO_ADDRESS →
        get_task_body envZero 42 addrC =
          Except.error (PyErr.httpExc 403 "Not authorized to view this task")
        ∧ (get_fund_instructions_body envZero 42 addrC).1 =
          Except.error (PyErr.httpExc 403 "Only task client can fund"))
      ∧ (lower addrC = ZERO_ADDRESS →
        ∃ v, get_task_body envZero 42 addrC = Except.ok v)) :=
  ⟨rfl, zeroed_task_no_explicit_check envZero 42 addrC rfl⟩

/-- Claim C5: for a fund-instruction build whose currency tag resolves to the
native coin (AVAX), requested by the task's client on a Created task, the
handler returns exactly one descriptor whose `value` equals the task's
on-chain base-unit amount, there is no approve step, and the single write
gas estimation carries that value. -/
theorem fund_native_single_descriptor (env : Env) (task_id : Nat) (caller : String)
    (g : Nat)
    (hrole : lower (env.getTask task_id).client = lower caller)
    (hstatus : (env.getTask task_id).status = 0)
    (hcur : (Option.map TaskMetadata.currency (env.metadata task_id)).getD
      CurrencyType.AVAX = CurrencyType.AVAX)
    (hg : env.estGas "fundTask" (some (env.getTask task_id).amount) = some g) :
    get_fund_instructions_body env task_id caller =
      (Except.ok (FundResp.native
        { contract_address := CONTRACT_ADDRESS, function_name := "fundTask",
          amount_avax := wei_to_ether (env.getTask task_id).amount, gas_estimate := g,
          transaction_data := { sender := caller,
                                value := (env.getTask task_id).amount, gas := g,
                                gasPrice := env.gasPrice,
                                nonce := env.txCount 0 } }),
       [ChainCall.getTaskCall task_id,
        ChainCall.estimateGasCall "fundTask" (some (env.getTask task_id).amount),
        ChainCall.gasPriceCall, ChainCall.txCountCall 0]) := by
  simp [get_fund_instructions_body, hrole, hstatus, hcur, hg, TaskStatus.value]

/-- Witness for `fund_native_single_descriptor`: the spec's native end-to-end
scenario (2 AVAX task, amount 2 * 10^18 wei) in environment `envNative`. -/
theorem fund_native_single_descriptor_witness :
    lower (envNative.getTask 7).client = lower addrA
    ∧ (envNative.getTask 7).status = 0
    ∧ (Option.map TaskMetadata.currency (envNative.metadata 7)).getD
        CurrencyType.AVAX = CurrencyType.AVAX
    ∧ envNative.estGas "fundTask" (some (envNative.getTask 7).amount) = some 21000
    ∧ (envNative.getTask 7).amount = 2000000000000000000
    ∧ get_fund_instructions_body envNative 7 addrA =
      (Except.ok (FundResp.native
        { contract_address := CONTRACT_ADDRESS, function_name := "fundTask",
          amount_avax := wei_to_ether (envNative.getTask 7).amount, gas_estimate := 21000,
          transaction_data := { sender := addrA,
                                value := (envNative.getTask 7).amount, gas := 21000,
                                gasPrice := envNative.gasPrice,
                                nonce := envNative.txCount 0 } }),
       [ChainCall.getTaskCall 7,
        ChainCall.estimateGasCall "fundTask" (some (envNative.getTask 7).amount),
        ChainCall.gasPriceCall, ChainCall.txCountCall 0]) :=
  ⟨by decide, by decide, by decide, rfl, by decide,
   fund_native_single_descriptor envNative 7 addrA 21000 (by decide) (by decide)
     (by decide) rfl⟩

/-- Claim C10: for a task id with no off-chain metadata entry, the currency
tag defaults to native AVAX regardless of the task's on-chain token address
field: the read converts the raw amount at 18 decimals and reports currency
AVAX, and the fund build produces the single native-coin descriptor carrying
the amount as `value`. -/
theorem missing_metadata_defaults_native (env : Env) (task_id : Nat) (caller : String)
    (g : Nat)
    (hmd : env.metadata task_id = none)
    (hrole : lower (env.getTask task_id).client = lower caller)
    (hstatus : (env.getTask task_id).status = 0)
    (hg : env.estGas "fundTask" (some (env.getTask task_id).amount) = some g) :
    get_task_body env task_id caller = Except.ok
      { id := (env.getTask task_id).id, client := (env.getTask task_id).client,
        freelancer := (env.getTask task_id).freelancer,
        amount := wei_to_ether (env.getTask task_id).amount,
        amount_raw := (env.getTask task_id).amount,
        token_address := (env.getTask task_id).token,
        status_code := (env.getTask task_id).status,
        client_approved := (env.getTask task_id).clientApproved,
        freelancer_delivered := (env.getTask task_id).freelancerDelivered,
        currency := CurrencyType.AVAX }
    ∧ (get_fund_instructions_body env task_id caller).1 = Except.ok (FundResp.native
        { contract_address := CONTRACT_ADDRESS, function_name := "fundTask",
          amount_avax := wei_to_ether (env.getTask task_id).amount, gas_estimate := g,
          transaction_data := { sender := caller,
                                value := (env.getTask task_id).amount, gas := g,
                                gasPrice := env.gasPrice,
                                nonce := env.txCount 0 } }) := by
  constructor
  · have hne : ¬ (lower caller ≠ lower (env.getTask task_id).client ∧
        lower caller ≠ lower (env.getTask task_id).freelancer) := by
      intro hc
      exact hc.1 hrole.symm
    simp [get_task_body, hmd, hne]
  · simp [get_fund_instructions_body, hrole, hstatus, hmd, hg, TaskStatus.value]

/-- Witness for `missing_metadata_defaults_native`: environment `envNoMeta`,
whose task has the USDC contract in its on-chain token field but no metadata
entry, still yields currency AVAX and a native value-carrying descriptor. -/
theorem missing_metadata_defaults_native_witness :
    envNoMeta.metadata 9 = none
    ∧ lower (envNoMeta.getTask 9).client = lower addrA
    ∧ (envNoMeta.getTask 9).status = 0
    ∧ envNoMeta.estGas "fundTask" (some (envNoMeta.getTask 9).amount) = some 21000
    ∧ (envNoMeta.getTask 9).token = USDC_ADDRESS
    ∧ (get_task_body envNoMeta 9 addrA = Except.ok
        { id := (envNoMeta.getTask 9).id, client := (envNoMeta.getTask 9).client,
          freelancer := (envNoMeta.getTask 9).freelancer,
          amount := wei_to_ether (envNoMeta.getTask 9).amount,
          amount_raw := (envNoMeta.getTask 9).amount,
          token_address := (envNoMeta.getTask 9).token,
          status_code := (envNoMeta.getTask 9).status,
          client_approved := (envNoMeta.getTask 9).clientApproved,
          freelancer_delivered := (envNoMeta.getTask 9).freelancerDelivered,
          currency := CurrencyType.AVAX }
      ∧ (get_fund_instructions_body envNoMeta 9 addrA).1 = Except.ok (FundResp.native
          { contract_address := CONTRACT_ADDRESS, function_name := "fundTask",
            amount_avax := wei_to_ether (envNoMeta.getTask 9).amount, gas_estimate := 21000,
            transaction_data := { sender := addrA,
                                  value := (envNoMeta.getTask 9).amount, gas := 21000,
                                  gasPrice := envNoMeta.gasPrice,
                                  nonce := envNoMeta.txCount 0 } })) :=
  ⟨rfl, by decide, by decide, rfl, by decide,
   missing_metadata_defaults_native envNoMeta 9 addrA 21000 rfl (by decide)
     (by decide) rfl⟩

/-- Claim C8: when the native-balance lookup fails but both token-balance
lookups succeed, `GET /users/profile` still succeeds (HTTP 200) with the AVAX
balance defaulted to 0 and the token balances populated; moreover the handler
succeeds for every combination of sub-lookup failures (each sub-lookup fails
independently without failing the whole response). -/
theorem profile_partial_failure_isolated (env : ProfileEnv) (u : User) (ub ut : Nat)
    (hn : env.nativeBalance = none)
    (hc : env.usdcBalance = some ub)
    (ht : env.usdtBalance = some ut) :
    (∃ p, get_user_profile env u = Except.ok p
       ∧ p.balance_AVAX = 0
       ∧ p.balance_USDC = base_unit_to_token ub 6
       ∧ p.balance_USDT = base_unit_to_token ut 6
       ∧ p.user = u)
    ∧ ∀ env2 u2, ∃ p2, get_user_profile env2 u2 = Except.ok p2 := by
  constructor
  · refine ⟨_, rfl, ?_, ?_, ?_, rfl⟩
    · simp [get_user_profile, hn]
    · simp [get_user_profile, hc]
    · simp [get_user_profile, ht]
  · intro env2 u2
    exact ⟨_, rfl⟩

/-- Witness for `profile_partial_failure_isolated`: environment
`profileEnvPartial` (native balance fails, USDC 12_500_000 and USDT 42 base
units succeed) for user `userA`. -/
theorem profile_partial_failure_isolated_witness :
    profileEnvPartial.nativeBalance = none
    ∧ profileEnvPartial.usdcBalance = some 12500000
    ∧ profileEnvPartial.usdtBalance = some 42
    ∧ ((∃ p, get_user_profile profileEnvPartial userA = Except.ok p
         ∧ p.balance_AVAX = 0
         ∧ p.balance_USDC = base_unit_to_token 12500000 6
         ∧ p.balance_USDT = base_unit_to_token 42 6
         ∧ p.user = userA)
       ∧ ∀ env2 u2, ∃ p2, get_user_profile env2 u2 = Except.ok p2) :=
  ⟨rfl, rfl, rfl,
   profile_partial_failure_isolated profileEnvPartial userA 12500000 42 rfl rfl rfl⟩

/-- Helper: a format-valid registration succeeds and its lower-cased address
resolves to the returned record in the resulting user map (whether the record
already existed or was just created). -/
theorem register_user_resolves (db : List (String × User)) (fid : Nat)
    (r : UserRegistration)
    (hfmt : startsWith0x (lower r.wallet_address) = true)
    (hlen : strLen (lower r.wallet_address) = 42)
    (haddr : is_address (lower r.wallet_address) = true) :
    ∃ u, (register_user db fid r).1 = Except.ok u
      ∧ db_lookup (register_user db fid r).2 (lower r.wallet_address) = some u := by
  simp only [register_user]
  rw [if_neg (by simp [hfmt, hlen]), if_neg (by simp [haddr])]
  cases h : db_lookup db (lower r.wallet_address) with
  | some u =>
    exact ⟨u, rfl, h⟩
  | none =>
    refine ⟨_, rfl, ?_⟩
    simp [db_lookup]

/-- Claim C9: registering the same wallet address twice (case-insensitively,
keyed by the lower-cased address) returns the same user record — in
particular the same id — both times and leaves the user map unchanged on the
second call (no duplicate), and bearer authentication with the same address
is the same get-or-create: it returns the same record and also leaves the
map unchanged. -/
theorem register_idempotent (db : List (String × User)) (f1 f2 : Nat)
    (r1 r2 : UserRegistration)
    (hlow : lower r1.wallet_address = lower r2.wallet_address)
    (hfmt : startsWith0x (lower r1.wallet_address) = true)
    (hlen : strLen (lower r1.wallet_address) = 42)
    (haddr : is_address (lower r1.wallet_address) = true) :
    ∃ u, (register_user db f1 r1).1 = Except.ok u
      ∧ (register_user (register_user db f1 r1).2 f2 r2).1 = Except.ok u
      ∧ (register_user (register_user db f1 r1).2 f2 r2).2 =
          (register_user db f1 r1).2
      ∧ (get_current_user (register_user db f1 r1).2 f2 r2.wallet_address).1 =
          Except.ok u
      ∧ (get_current_user (register_user db f1 r1).2 f2 r2.wallet_address).2 =
          (register_user db f1 r1).2 := by
  obtain ⟨u, hu1, hu2⟩ := register_user_resolves db f1 r1 hfmt hlen haddr
  have hfmt2 : startsWith0x (lower r2.wallet_address) = true := by
    rw [← hlow]
    exact hfmt
  have hlen2 : strLen (lower r2.wallet_address) = 42 := by
    rw [← hlow]
    exact hlen
  have haddr2 : is_address (lower r2.wallet_address) = true := by
    rw [← hlow]
    exact haddr
  have hl2 : db_lookup (register_user db f1 r1).2 (lower r2.wallet_address) = some u := by
    rw [← hlow]
    exact hu2
  have h2 : register_user (register_user db f1 r1).2 f2 r2 =
      (Except.ok u, (register_user db f1 r1).2) := by
    generalize (register_user db f1 r1).2 = db1 at hl2 ⊢
    simp only [register_user]
    rw [if_neg (by simp [hfmt2, hlen2]), if_neg (by simp [haddr2]), hl2]
  have hneq : ¬ r2.wallet_address = "" := by
    intro h0
    rw [h0] at hlen2
    simp [lower, strLen] at hlen2
  have h3 : get_current_user (register_user db f1 r1).2 f2 r2.wallet_address =
      (Except.ok u, (register_user db f1 r1).2) := by
    generalize (register_user db f1 r1).2 = db1 at hl2 ⊢
    simp only [get_current_user]
    rw [if_neg hneq, if_neg (by simp [hfmt2, hlen2]), if_neg (by simp [haddr2]), hl2]
  exact ⟨u, hu1, by rw [h2], by rw [h2], by rw [h3], by rw [h3]⟩

/-- Witness for `register_idempotent`: registering the checksummed spelling
`regUpper` and then the lower-case spelling `regLower` of the same address
against an empty user map (uuids 11 then 22). -/
theorem register_idempotent_witness :
    lower regUpper.wallet_address = lower regLower.wallet_address
    ∧ startsWith0x (lower regUpper.wallet_address) = true
    ∧ strLen (lower regUpper.wallet_address) = 42
    ∧ is_address (lower regUpper.wallet_address) = true
    ∧ ∃ u, (register_user [] 11 regUpper).1 = Except.ok u
      ∧ (register_user (register_user [] 11 regUpper).2 22 regLower).1 = Except.ok u
      ∧ (register_user (register_user [] 11 regUpper).2 22 regLower).2 =
          (register_user [] 11 regUpper).2
      ∧ (get_current_user (register_user [] 11 regUpper).2 22
          regLower.wallet_address).1 = Except.ok u
      ∧ (get_current_user (register_user [] 11 regUpper).2 22
          regLower.wallet_address).2 = (register_user [] 11 regUpper).2 :=
  ⟨by decide, by decide, by decide, by decide,
   register_idempotent [] 11 22 regUpper regLower (by decide) (by decide) (by decide)
     (by decide)⟩

end Escrow
